import Mathlib

/-!
# Verification development for the TG-Overle video overlay pipeline

Shallow embedding of the Python sources `src/video_processor.py` and
`src/app.py` (the `bot.py` variant shares the same processor).  Pure
computations (geometry, control flow of `process_video`, the tool
resolver loop, the concurrency guard of `handle_video`) are translated
as Lean functions; the outcomes of `subprocess.run` calls and of the
filesystem are passed in explicitly as environment values, so every
definition is executable on concrete inputs.
-/

namespace Overle

/-! ## Filesystem model

A regular file is a (directory, name) pair; the filesystem state is the
list of regular files present.  Directories themselves persist across
operations (the code only ever unlinks regular files: `cleanup` guards
with `item.is_file()`), so they are not part of the state. -/

/-- A regular file: the directory it sits in and its base name. -/
structure FPath where
  dir : String
  name : String
deriving DecidableEq, Repr

/-- Scratch directory: `self.temp_dir = base_dir / "downloads" / "temp"`
(video_processor.py line 24). -/
def tempDirS : String := "downloads/temp"

/-- Output directory: `self.output_dir = base_dir / "downloads" / "output"`
(video_processor.py line 23). -/
def outputDirS : String := "downloads/output"

/-- Overlay asset: `self.overlay_path = base_dir / "downloads" / "overlay" /
"Family Home.mp4"` (video_processor.py line 22). -/
def overlayFP : FPath := ⟨"downloads/overlay", "Family Home.mp4"⟩

/-- Cleanup, `VideoProcessor.cleanup` (video_processor.py lines 72-84): iterates
`self.temp_dir.glob("*")` and unlinks every regular file found there; files
outside the temp directory are untouched.  All exceptions are swallowed, so
the operation never raises; unlink is modelled as always succeeding. -/
def cleanup (fs : List FPath) : List FPath :=
  fs.filter (fun f => f.dir ≠ tempDirS)

/-! ## Geometry (video_processor.py lines 195-197)

`overlay_height = max(30, video_height // 10)` and
`overlay_y = video_height - overlay_height`.  Python `//` on nonnegative
ints is Nat division; the subtraction can go negative in Python, so the
offset is an integer. -/

/-- Bar height: `overlay_height = max(30, video_height // 10)` (line 196). -/
def overlayHeight (h : Nat) : Nat := max 30 (h / 10)

/-- Vertical offset: `overlay_y = video_height - overlay_height` (line 197);
Python int subtraction, which can be negative. -/
def overlayY (h : Nat) : Int := (h : Int) - (overlayHeight h : Int)

/-! ## Media probes (video_processor.py lines 86-141)

The result of a `subprocess.run` probe call is an oracle value: either the
call raised (timeout, spawn failure, ...) or it ran and yielded a return
code, whether the stripped stdout was nonempty, and what the Python
`float(...)` / `map(int, ....split(','))` parse of that stdout would
produce (`none` when the parse raises). -/

/-- Outcome of the duration-probe subprocess (lines 100-105): raised, or ran
with a return code, stdout-nonempty flag, and the value `float(stdout.strip())`
would give (`none` if `float` raises on non-numeric text). -/
inductive InfoRun where
  | exc
  | ran (rc : Int) (stdoutNonempty : Bool) (parsed : Option ℚ)
deriving DecidableEq, Repr

/-- Environment of one `get_video_info` call: whether the probed file exists,
and what the subprocess would yield if invoked. -/
structure InfoEnv where
  fileExists : Bool
  run : InfoRun
deriving DecidableEq, Repr

/-- Duration probe, `VideoProcessor.get_video_info` (lines 86-112).  Returns the duration and
whether the external tool was invoked.  Missing file: logs and `return 0`
(line 91) without running the tool.  Otherwise the tool runs; on
`returncode == 0 and result.stdout.strip()` the stripped stdout is parsed by
`float` (line 108; a parse failure raises into the `except`, line 112), and
every other path returns the 5.0 default (lines 109, 112). -/
def get_video_info (env : InfoEnv) : ℚ × Bool :=
  if !env.fileExists then (0, false)
  else
    match env.run with
    | .exc => (5, true)
    | .ran rc stdoutNonempty parsed =>
      if rc = 0 ∧ stdoutNonempty then
        match parsed with
        | some v => (v, true)
        | none => (5, true)
      else (5, true)

/-- Outcome of the dimensions-probe subprocess (lines 128-133): raised, or ran
with a return code, stdout-nonempty flag, and the `(width, height)` pair
`map(int, stdout.strip().split(','))` would unpack (`none` if the parse or
unpack raises). -/
inductive DimsRun where
  | exc
  | ran (rc : Int) (stdoutNonempty : Bool) (parsed : Option (Nat × Nat))
deriving DecidableEq, Repr

/-- Environment of one `get_video_dimensions` call. -/
structure DimsEnv where
  fileExists : Bool
  run : DimsRun
deriving DecidableEq, Repr

/-- Dimensions probe, `VideoProcessor.get_video_dimensions` (lines 114-141).  Missing file:
`return 1280, 720` (line 118) without running the tool.  Otherwise the tool
runs; on `returncode == 0 and result.stdout.strip()` the stdout is unpacked
into width and height (line 136; failure raises into the `except`, line 141),
and every other path returns the `1280, 720` default (lines 138, 141). -/
def get_video_dimensions (env : DimsEnv) : (Nat × Nat) × Bool :=
  if !env.fileExists then ((1280, 720), false)
  else
    match env.run with
    | .exc => ((1280, 720), true)
    | .ran rc stdoutNonempty parsed =>
      if rc = 0 ∧ stdoutNonempty then
        match parsed with
        | some wh => (wh, true)
        | none => ((1280, 720), true)
      else ((1280, 720), true)

/-! ## run_ffmpeg (video_processor.py lines 143-171) -/

/-- Outcome of one `subprocess.run` invocation of the external tool:
`timeout` (the call raised `subprocess.TimeoutExpired`), `exc msg` (any other
exception, with `str(e)`), or `ran rc stdoutS stderrS`. -/
inductive SubprocOutcome where
  | timeout
  | exc (msg : String)
  | ran (rc : Int) (stdoutS : String) (stderrS : String)
deriving DecidableEq, Repr

/-- The `timeout=300` argument of the `subprocess.run` call inside
`run_ffmpeg` (line 152). -/
def runFfmpegTimeoutSeconds : Nat := 300

/-- The `timeout=30` argument of the probe subprocess calls (lines 104, 132). -/
def probeTimeoutSeconds : Nat := 30

/-- The `timeout=30` argument of the output-verification subprocess call
(line 246). -/
def verifyTimeoutSeconds : Nat := 30

/-- Compose wrapper, `VideoProcessor.run_ffmpeg` (lines 143-171).  Nonzero return code yields
`(False, stderr)` (line 162); success yields `(True, stdout)` (line 164);
`TimeoutExpired` yields `(False, "Timeout")` (line 168); any other exception
yields `(False, str(e))` (line 171). -/
def run_ffmpeg : SubprocOutcome → Bool × String
  | .timeout => (false, "Timeout")
  | .exc msg => (false, msg)
  | .ran rc stdoutS stderrS => if rc ≠ 0 then (false, stderrS) else (true, stdoutS)

/-! ## process_video (video_processor.py lines 173-264) -/

/-- Environment of one `process_video` call: the filesystem before the call,
the input path argument and output filename argument, whether the overlay
asset exists, the oracle outcomes of the two probes and of the compose pass,
the state of the output file after the compose pass, and the outcome of the
verification subprocess. -/
structure PVEnv where
  fs0 : List FPath
  inputPath : FPath
  outputFilename : String
  overlayExists : Bool
  dimsRun : DimsRun
  infoRun : InfoRun
  composeOutcome : SubprocOutcome
  outputExists : Bool
  outputSize : Nat
  verifyOutcome : SubprocOutcome
deriving Repr

/-- Result of `process_video`: the returned value (`None` or the output
path), plus whether any subprocess for the external tool was launched
(probes, compose or verify) — used to state the claims that certain failure
paths return before invoking the tool. -/
structure PVResult where
  output : Option FPath
  toolInvoked : Bool
deriving DecidableEq, Repr

/-- Pipeline core, `VideoProcessor.process_video` (lines 173-264).  Control flow of the
source, in order: `self.cleanup()` (line 177); input-existence check against
the cleaned filesystem (lines 180-182); overlay-existence check (lines
184-186); `get_video_dimensions` on the input and `get_video_info` on the
overlay (lines 189-190); geometry (lines 196-197); `run_ffmpeg` on the
compose command (line 224), failure returns `None` (lines 226-228);
verification: output exists (line 231), `file_size > 10240` (line 233),
verify subprocess `returncode == 0` (lines 242-249) returns the output path,
a nonzero code returns `None` (line 253), a verify exception (timeout
included) falls into the outer `except` and returns `None` (lines 261-264);
a missing or undersized output returns `None` (lines 256, 259).  The two
probes run after both existence checks passed, so both probed files exist at
that point. -/
def process_video (env : PVEnv) : PVResult :=
  let fs1 := cleanup env.fs0
  if env.inputPath ∉ fs1 then ⟨none, false⟩
  else if !env.overlayExists then ⟨none, false⟩
  else
    let wh := (get_video_dimensions ⟨true, env.dimsRun⟩).1
    let _overlayDuration := (get_video_info ⟨true, env.infoRun⟩).1
    let _oh := overlayHeight wh.2
    let _oy := overlayY wh.2
    let composeRes := run_ffmpeg env.composeOutcome
    if !composeRes.1 then ⟨none, true⟩
    else if env.outputExists then
      if env.outputSize > 10240 then
        match env.verifyOutcome with
        | .ran rc _ _ =>
          if rc = 0 then ⟨some ⟨outputDirS, env.outputFilename⟩, true⟩
          else ⟨none, true⟩
        | _ => ⟨none, true⟩
      else ⟨none, true⟩
    else ⟨none, true⟩

/-- The verification subprocess exited with code 0 (lines 242-249). -/
def verifyPassed : SubprocOutcome → Bool
  | .ran rc _ _ => rc = 0
  | _ => false

/-! ## Tool resolution (video_processor.py lines 32-70) -/

/-- Outcome of one `[path, "-version"]` probe with `timeout=5` (lines 43-48):
raised (any exception, caught by the bare `except`) or ran with a return
code. -/
inductive VersionProbe where
  | exc
  | ran (rc : Int)
deriving DecidableEq, Repr

/-- The probe succeeded: the call ran and exited 0 (line 49). -/
def probeSucceeded : VersionProbe → Bool
  | .ran rc => rc = 0
  | .exc => false

/-- Outcome of the `["which", "ffmpeg"]` call (lines 57-61): raised, or ran
with a return code and stdout. -/
inductive WhichOutcome where
  | exc
  | ran (rc : Int) (stdoutS : String)
deriving DecidableEq, Repr

/-- Environment of one `_find_ffmpeg` call: what each version probe and the
`which` call would yield. -/
structure FindEnv where
  probe : String → VersionProbe
  whichO : WhichOutcome

/-- Python `str.strip()`: drop whitespace from both ends (executable
character-list implementation, so concrete calls evaluate). -/
def pyStrip (s : String) : String :=
  ⟨((s.data.dropWhile Char.isWhitespace).reverse.dropWhile
      Char.isWhitespace).reverse⟩

/-- The candidate list of `_find_ffmpeg` (lines 34-39). -/
def ffmpegCandidatePaths : List String :=
  ["/app/vendor/ffmpeg/ffmpeg", "/usr/local/bin/ffmpeg", "/usr/bin/ffmpeg", "ffmpeg"]

/-- The `timeout=5` argument of each version probe (line 47). -/
def versionProbeTimeoutSeconds : Nat := 5

/-- The `for path in paths` loop of `_find_ffmpeg` (lines 41-53): return the
first candidate whose version probe exits 0; an exception or nonzero code
moves on to the next candidate. -/
def findLoop (probe : String → VersionProbe) : List String → Option String
  | [] => none
  | p :: ps =>
    match probe p with
    | .ran rc => if rc = 0 then some p else findLoop probe ps
    | .exc => findLoop probe ps

/-- Tool resolver, `VideoProcessor._find_ffmpeg` (lines 32-70).  Runs the candidate loop;
when it finds nothing, runs `which ffmpeg` and returns its stripped stdout
if it exits 0 (lines 56-65); otherwise returns `"ffmpeg"` (line 70). -/
def find_ffmpeg (env : FindEnv) : String :=
  match findLoop env.probe ffmpegCandidatePaths with
  | some p => p
  | none =>
    match env.whichO with
    | .ran rc stdoutS => if rc = 0 then pyStrip stdoutS else "ffmpeg"
    | .exc => "ffmpeg"

/-- Constructor state, `VideoProcessor.__init__` (lines 15-30): the resolver runs once at
construction and its result is stored in `self.ffmpeg_path`; every later
command line reads that field. -/
structure VideoProcessorState where
  ffmpeg_path : String

/-- Construction: `self.ffmpeg_path = self._find_ffmpeg()` (line 17). -/
def initVideoProcessor (env : FindEnv) : VideoProcessorState :=
  ⟨find_ffmpeg env⟩

/-! ## Adapter-side job handling and the concurrency guard
(app.py `handle_video`, lines 70-201)

The in-memory `active_users` dict is modelled as the list of its keys
(keys are unique in a dict; `pop(uid, None)` removes the key, modelled by
filtering it out).  The handler runs on a single asyncio event loop and,
on the successful pre-check path, performs no `await` between the
membership check (line 74) and the insertion (line 108), so
check-then-set is atomic. -/

/-- Kind of incoming message payload (app.py lines 88-100): a `video`
message, a `document` with an optional filename (Python
`file_obj.file_name or "video.mp4"`; `none` models a missing or empty
filename), or neither. -/
inductive FileKind where
  | video
  | document (filename : Option String)
  | neither
deriving DecidableEq, Repr

/-- One incoming message: requester identity and payload. -/
structure Msg where
  uid : Nat
  kind : FileKind
  fileSize : Nat
deriving DecidableEq, Repr

/-- Size limit `MAX_SIZE = int(os.getenv("MAX_FILE_SIZE", "500000000"))`
(app.py line 18), at its default. -/
def MAX_SIZE : Nat := 500000000

/-- Filename resolution (app.py lines 88-100): a video message uses
`"video.mp4"` (line 90); a document uses its filename or the same default
(line 93) and is rejected unless it ends in `.mp4` case-insensitively
(line 96); anything else returns with no filename (line 100). -/
def resolveFilename : FileKind → Option String
  | .video => some "video.mp4"
  | .document fn =>
    let filename := fn.getD "video.mp4"
    if filename.toLower.endsWith ".mp4" then some filename else none
  | .neither => none

/-- Download target chosen by the adapter (app.py line 123):
`processor.temp_dir / f"input_<user_id>_<file_id>.mp4"` — always inside the
processor's shared temp directory. -/
def inputPathFor (uid : Nat) (fileId : String) : FPath :=
  ⟨tempDirS, "input_" ++ toString uid ++ "_" ++ fileId ++ ".mp4"⟩

/-- Output filename chosen by the adapter (app.py line 124):
`f"processed_<filename>"` — derived from the user-supplied filename only,
with no requester or job component. -/
def outputFilenameFor (filename : String) : String :=
  "processed_" ++ filename

/-- How far the `try` body of `handle_video` got before its `finally` block
ran (app.py lines 113-201): an exception before the download attempt
(lines 115-121), an exception during download (lines 127-128),
`process_video` returning `None` (early return, lines 135-141), an
exception after processing started (upload, timeout, ...), or full
success.  Every one of these paths reaches the `finally` block. -/
inductive JobEnd where
  | preDownloadRaised
  | downloadRaised
  | processFailed
  | postProcessRaised
  | success
deriving DecidableEq, Repr

/-- The download attempt (app.py lines 127-128) was reached. -/
def reachedDownload : JobEnd → Bool
  | .preDownloadRaised => false
  | _ => true

/-- The `process_video` call (app.py line 133) was reached. -/
def reachedProcess : JobEnd → Bool
  | .preDownloadRaised => false
  | .downloadRaised => false
  | _ => true

/-- Observable actions of one `handle_video` call: whether the requester was
admitted into `active_users`, whether a download was attempted (workspace
consumed), whether `process_video` (the only subprocess spawner) was called,
and whether the call replied "already in progress". -/
structure HvTrace where
  admitted : Bool
  downloaded : Bool
  processCalled : Bool
  rejectedInProgress : Bool
deriving DecidableEq, Repr

/-- Job handler, app.py `handle_video` (lines 70-201), restricted to its
effect on `active_users` and its admission trace.  In source order: the
in-progress rejection (lines 74-76), the overlay check (lines 79-85), the
payload/filename checks (lines 88-100), the size check (lines 103-104),
admission `active_users[user_id] = True` (line 108), the `try` body
described by `jobEnd`, and the `finally` block whose first statement is
`active_users.pop(user_id, None)` (line 188) and which runs on every exit
path of the `try` (the later unlink and `cleanup()` calls there are
themselves wrapped in swallow-all handlers, lines 190-201). -/
def handle_video (st : List Nat) (msg : Msg) (overlayExists : Bool)
    (jobEnd : JobEnd) : List Nat × HvTrace :=
  if msg.uid ∈ st then (st, ⟨false, false, false, true⟩)
  else if !overlayExists then (st, ⟨false, false, false, false⟩)
  else
    match resolveFilename msg.kind with
    | none => (st, ⟨false, false, false, false⟩)
    | some _filename =>
      if msg.fileSize > MAX_SIZE then (st, ⟨false, false, false, false⟩)
      else
        let st1 := msg.uid :: st
        let st2 := st1.filter (fun x => x ≠ msg.uid)
        (st2, ⟨true, reachedDownload jobEnd, reachedProcess jobEnd, false⟩)

/-! ## Claim-side helper definitions -/

/-- Failure condition of the duration probe with the file present, read off
the source branches (lines 100-112): the subprocess raised, exited nonzero,
produced empty stdout, or produced text `float` cannot parse. -/
def infoRunDefaulted : InfoRun → Bool
  | .exc => true
  | .ran rc stdoutNonempty parsed => !(rc == 0 && stdoutNonempty) || parsed.isNone

/-- Failure condition of the dimensions probe with the file present, read off
the source branches (lines 128-141). -/
def dimsRunDefaulted : DimsRun → Bool
  | .exc => true
  | .ran rc stdoutNonempty parsed => !(rc == 0 && stdoutNonempty) || parsed.isNone

/-- Resolution procedure as the claim words it (spec §4.1): first candidate
whose version probe succeeds, else the literal `"ffmpeg"` — with no `which`
step.  Stated for comparison against the source's `find_ffmpeg`. -/
def findFfmpegClaimed (env : FindEnv) : String :=
  (findLoop env.probe ffmpegCandidatePaths).getD "ffmpeg"

/-! ## Shared lemmas -/

/-- A file whose directory is the temp directory never survives `cleanup`. -/
lemma not_mem_cleanup_of_tempDir {f : FPath} (h : f.dir = tempDirS)
    (fs : List FPath) : f ∉ cleanup fs := by
  intro hmem
  have := (List.mem_filter.mp hmem).2
  simp only [decide_eq_true_eq] at this
  exact this h

/-- Full success characterization of `process_video`: a non-`None` return is
equivalent to the conjunction of every gate in the source control flow. -/
lemma process_video_some_iff (env : PVEnv) :
    (process_video env).output ≠ none ↔
      (env.inputPath ∈ cleanup env.fs0 ∧ env.overlayExists = true ∧
       (run_ffmpeg env.composeOutcome).1 = true ∧ env.outputExists = true ∧
       10240 < env.outputSize ∧ verifyPassed env.verifyOutcome = true) := by
  obtain ⟨fs0, ip, ofn, ov, dr, ir, co, oex, osz, vo⟩ := env
  simp only [process_video, verifyPassed]
  by_cases h1 : ip ∈ cleanup fs0
  · simp only [h1, not_true_eq_false, if_false, true_and]
    cases ov
    · simp
    · simp only [Bool.not_true, Bool.false_eq_true, if_false, true_and]
      by_cases hc : (run_ffmpeg co).1 = true
      · simp only [hc, Bool.not_true, Bool.false_eq_true, if_false, true_and]
        cases oex
        · simp
        · simp only [if_true, true_and]
          by_cases hsz : 10240 < osz
          · simp only [hsz, if_pos hsz, true_and]
            cases vo with
            | timeout => simp
            | exc msg => simp
            | ran rc o e =>
              by_cases hrc : rc = 0
              · subst hrc; simp
              · simp [hrc]
          · simp only [if_neg hsz]
            simp [hsz]
      · have hc' : (run_ffmpeg co).1 = false := by
          cases hb : (run_ffmpeg co).1
          · rfl
          · exact absurd hb hc
        simp [hc']
  · simp [h1]

/-! ## Theorems -/

/-- C1 counterexample: the claim as stated — for every positive height the
geometry gives `barHeightPx ≥ 30` and `0 ≤ overlayYPx < height` — is false:
at height 1 the code computes `overlay_y = 1 - max(30, 0) = -29 < 0`. -/
theorem C1_counterexample :
    ¬ (∀ h : Nat, 0 < h →
        30 ≤ overlayHeight h ∧ 0 ≤ overlayY h ∧ overlayY h < h) :=
  fun hAll => absurd (hAll 1 (by decide)).2.1 (by decide)

/-- C1 (amended): for every positive height the geometry gives
`barHeightPx ≥ 30` and `overlayYPx < height`, and `overlayYPx ≥ 0` holds
whenever `height ≥ 30` (for `0 < height < 30` the offset is negative). -/
theorem C1_geometry_bounds (h : Nat) (_hpos : 0 < h) :
    30 ≤ overlayHeight h ∧ overlayY h < h ∧ (30 ≤ h → 0 ≤ overlayY h) := by
  have hdiv : h / 10 ≤ h := Nat.div_le_self h 10
  unfold overlayY overlayHeight
  rcases Nat.le_total 30 (h / 10) with hle | hle
  · rw [Nat.max_eq_right hle]
    refine ⟨hle, ?_, fun _ => ?_⟩ <;> omega
  · rw [Nat.max_eq_left hle]
    refine ⟨le_refl _, ?_, fun h30 => ?_⟩ <;> omega

/-- C1 witness: the amended bounds evaluated at height 720
(`overlay_height = 72`, `overlay_y = 648`). -/
theorem C1_geometry_bounds_witness :
    0 < 720 ∧
      (30 ≤ overlayHeight 720 ∧ overlayY 720 < 720 ∧
        (30 ≤ 720 → 0 ≤ overlayY 720)) :=
  ⟨by decide, C1_geometry_bounds 720 (by decide)⟩

/-- C2 counterexample: probing a missing file does not return the documented
duration default 5.0 — `get_video_info` returns 0 there (line 91), and the
claim's `duration = 5.0` is violated (dimensions and the
no-tool-invocation part do hold). -/
theorem C2_counterexample :
    get_video_info ⟨false, .exc⟩ = (0, false) ∧ (0 : ℚ) ≠ 5 :=
  ⟨rfl, by norm_num⟩

/-- C2 (amended): probing a missing file returns duration 0 (not 5.0) and
dimensions 1280×720 without invoking the tool; with the file present, a
tool failure, empty output or unparsable output yields duration 5.0 and
dimensions 1280×720, with the tool invoked; none of these paths raises
(the probe functions are total). -/
theorem C2_probe_defaults (env : InfoEnv) (denv : DimsEnv) :
    (env.fileExists = false → get_video_info env = (0, false)) ∧
    (env.fileExists = true → infoRunDefaulted env.run = true →
      get_video_info env = (5, true)) ∧
    (denv.fileExists = false → get_video_dimensions denv = ((1280, 720), false)) ∧
    (denv.fileExists = true → dimsRunDefaulted denv.run = true →
      get_video_dimensions denv = ((1280, 720), true)) := by
  obtain ⟨fe, run⟩ := env
  obtain ⟨dfe, drun⟩ := denv
  refine ⟨?_, ?_, ?_, ?_⟩ <;> rintro rfl
  · rfl
  · cases run with
    | exc => intro _; rfl
    | ran rc ne parsed =>
      intro hdef
      simp only [infoRunDefaulted] at hdef
      simp only [get_video_info, Bool.not_true, Bool.false_eq_true, if_false]
      rcases Bool.or_eq_true_iff.mp hdef with hfail | hnone
      · have : ¬ (rc = 0 ∧ ne = true) := by
          intro ⟨h0, h1⟩
          subst h0 h1
          simp at hfail
        rw [if_neg this]
      · by_cases hcond : rc = 0 ∧ ne = true
        · rw [if_pos hcond]
          cases parsed with
          | none => rfl
          | some v => simp at hnone
        · rw [if_neg hcond]
  · rfl
  · cases drun with
    | exc => intro _; rfl
    | ran rc ne parsed =>
      intro hdef
      simp only [dimsRunDefaulted] at hdef
      simp only [get_video_dimensions, Bool.not_true, Bool.false_eq_true, if_false]
      rcases Bool.or_eq_true_iff.mp hdef with hfail | hnone
      · have : ¬ (rc = 0 ∧ ne = true) := by
          intro ⟨h0, h1⟩
          subst h0 h1
          simp at hfail
        rw [if_neg this]
      · by_cases hcond : rc = 0 ∧ ne = true
        · rw [if_pos hcond]
          cases parsed with
          | none => rfl
          | some v => simp at hnone
        · rw [if_neg hcond]

/-- C2 witness: the amended behavior at concrete probes — a missing file,
and a present file whose probe exits 1 with empty stdout. -/
theorem C2_probe_defaults_witness :
    get_video_info ⟨false, .exc⟩ = (0, false) ∧
      get_video_dimensions ⟨true, .ran 1 false none⟩ = ((1280, 720), true) :=
  ⟨(C2_probe_defaults ⟨false, .exc⟩ ⟨true, .ran 1 false none⟩).1 rfl,
   (C2_probe_defaults ⟨false, .exc⟩ ⟨true, .ran 1 false none⟩).2.2.2 rfl (by decide)⟩

/-- C9: releasing the workspace twice is idempotent — the second `cleanup`
leaves exactly the state the first one produced — and after a `cleanup` no
regular file remains in the temp directory.  `cleanup` is a total function
(the source swallows every exception), so neither call errors. -/
theorem C9_cleanup_idempotent (fs : List FPath) :
    cleanup (cleanup fs) = cleanup fs ∧
      ∀ f ∈ cleanup fs, f.dir ≠ tempDirS := by
  constructor
  · apply List.filter_eq_self.mpr
    intro f hf
    exact (List.mem_filter.mp hf).2
  · intro f hf
    have := (List.mem_filter.mp hf).2
    simpa using this

/-- C9 witness: idempotence and emptiness-of-temp evaluated on a filesystem
holding one temp file and one file elsewhere. -/
theorem C9_cleanup_idempotent_witness :
    cleanup (cleanup [⟨tempDirS, "a.mp4"⟩, ⟨"keep", "b.mp4"⟩]) =
        cleanup [⟨tempDirS, "a.mp4"⟩, ⟨"keep", "b.mp4"⟩] ∧
      (⟨"keep", "b.mp4"⟩ : FPath).dir ≠ tempDirS :=
  ⟨(C9_cleanup_idempotent _).1,
   (C9_cleanup_idempotent [⟨tempDirS, "a.mp4"⟩, ⟨"keep", "b.mp4"⟩]).2
     ⟨"keep", "b.mp4"⟩ (by decide)⟩

/-- C3: the shared-workspace safety requirement is violated by the code.
At the concrete failing input — user 1111's in-flight download sitting in
the shared temp directory while any `cleanup` (the first step of every
other user's `process_video`, and the `finally` block of every
`handle_video`) runs — every in-flight file is unlinked regardless of
owner, and the adapter's output filename carries no requester or job
component (`outputFilenameFor` does not even take an identity argument), so
two requesters sending `video.mp4` target the same output file. -/
theorem C3_shared_workspace_violated :
    cleanup [inputPathFor 1111 "fileA", inputPathFor 2222 "fileB"] = [] ∧
      outputFilenameFor "video.mp4" = "processed_video.mp4" := by
  exact ⟨rfl, rfl⟩

/-- C4: any `process_video` call whose input path lies in the processor's
temp directory — and the adapter's download target `inputPathFor` always
does — returns `None`: the initial `cleanup` unlinks the just-downloaded
input, so the existence check at line 180 fails before any tool runs. -/
theorem C4_temp_input_self_destructs (env : PVEnv)
    (h : env.inputPath.dir = tempDirS) :
    process_video env = ⟨none, false⟩ ∧
      ∀ (uid : Nat) (fileId : String), (inputPathFor uid fileId).dir = tempDirS := by
  refine ⟨?_, fun _ _ => rfl⟩
  have hnot : env.inputPath ∉ cleanup env.fs0 :=
    not_mem_cleanup_of_tempDir h env.fs0
  simp [process_video, hnot]

/-- C4 witness: a job whose freshly downloaded input is the only file in the
temp directory still fails. -/
theorem C4_temp_input_self_destructs_witness :
    process_video ⟨[inputPathFor 7 "abc"], inputPathFor 7 "abc", "o.mp4", true,
        .ran 0 true (some (1280, 720)), .ran 0 true (some 3),
        .ran 0 "" "", true, 20000, .ran 0 "" ""⟩ = ⟨none, false⟩ :=
  (C4_temp_input_self_destructs _ rfl).1

/-- C6: `process_video` reports success only when the output file exists,
its size strictly exceeds 10240 bytes, and the decode-only re-check exits
with code 0; a compose failure returns `None`, and any verification failure
returns that same `None`. -/
theorem C6_verification_gates (env : PVEnv) :
    ((process_video env).output ≠ none →
      env.outputExists = true ∧ 10240 < env.outputSize ∧
        verifyPassed env.verifyOutcome = true) ∧
    ((run_ffmpeg env.composeOutcome).1 = false →
      (process_video env).output = none) ∧
    (¬(env.outputExists = true ∧ 10240 < env.outputSize ∧
        verifyPassed env.verifyOutcome = true) →
      (process_video env).output = none) := by
  refine ⟨fun hs => ?_, fun hc => ?_, fun hv => ?_⟩
  · have := (process_video_some_iff env).mp hs
    exact ⟨this.2.2.2.1, this.2.2.2.2.1, this.2.2.2.2.2⟩
  · by_contra hne
    have hchar := (process_video_some_iff env).mp hne
    rw [hchar.2.2.1] at hc
    exact Bool.noConfusion hc
  · by_contra hne
    have := (process_video_some_iff env).mp hne
    exact hv ⟨this.2.2.2.1, this.2.2.2.2.1, this.2.2.2.2.2⟩

/-- C6 witness: at a concrete environment where every gate passes, the job
returns a non-`None` output and the three verification checks are derived
from the theorem; at the same environment with the verify exit code flipped
to 1, the failed check is concrete and the theorem yields `None`. -/
theorem C6_verification_gates_witness :
    ((process_video ⟨[⟨"inbox", "in.mp4"⟩], ⟨"inbox", "in.mp4"⟩, "o.mp4", true,
          .ran 0 true (some (1280, 720)), .ran 0 true (some 3),
          .ran 0 "" "", true, 20000, .ran 0 "" ""⟩).output ≠ none ∧
      ((true : Bool) = true ∧ 10240 < 20000 ∧
        verifyPassed (SubprocOutcome.ran 0 "" "") = true)) ∧
    (¬((true : Bool) = true ∧ 10240 < 20000 ∧
        verifyPassed (SubprocOutcome.ran 1 "" "") = true) ∧
      (process_video ⟨[⟨"inbox", "in.mp4"⟩], ⟨"inbox", "in.mp4"⟩, "o.mp4", true,
          .ran 0 true (some (1280, 720)), .ran 0 true (some 3),
          .ran 0 "" "", true, 20000, .ran 1 "" ""⟩).output = none) :=
  ⟨⟨by decide,
    (C6_verification_gates ⟨[⟨"inbox", "in.mp4"⟩], ⟨"inbox", "in.mp4"⟩, "o.mp4",
        true, .ran 0 true (some (1280, 720)), .ran 0 true (some 3),
        .ran 0 "" "", true, 20000, .ran 0 "" ""⟩).1 (by decide)⟩,
   ⟨by decide,
    (C6_verification_gates ⟨[⟨"inbox", "in.mp4"⟩], ⟨"inbox", "in.mp4"⟩, "o.mp4",
        true, .ran 0 true (some (1280, 720)), .ran 0 true (some 3),
        .ran 0 "" "", true, 20000, .ran 1 "" ""⟩).2.2 (by decide)⟩⟩

/-- C7: when the overlay asset is missing, `process_video` returns `None`
with no external tool invocation at all — the overlay check (lines 184-186)
precedes both probes and the compose pass. -/
theorem C7_missing_overlay (env : PVEnv) (h : env.overlayExists = false) :
    process_video env = ⟨none, false⟩ := by
  obtain ⟨fs0, ip, ofn, ov, dr, ir, co, oex, osz, vo⟩ := env
  cases h
  by_cases h1 : ip ∈ cleanup fs0
  · simp [process_video, h1]
  · simp [process_video, h1]

/-- C7 witness: a job with a present input but missing overlay returns
`None` without invoking the tool. -/
theorem C7_missing_overlay_witness :
    process_video ⟨[⟨"inbox", "in.mp4"⟩], ⟨"inbox", "in.mp4"⟩, "o.mp4", false,
        .ran 0 true (some (1280, 720)), .ran 0 true (some 3),
        .ran 0 "" "", true, 20000, .ran 0 "" ""⟩ = ⟨none, false⟩ :=
  C7_missing_overlay _ rfl

/-- C5: the single-flight guard. (a) A request from an identity already in
`active_users` is rejected immediately: the state is unchanged and no
download is attempted and `process_video` — the only subprocess spawner —
is never called. (b) Whenever a request is admitted, the identity is absent
from the final state for every possible ending of the job body (success,
processing failure, or an exception at any stage) — the `finally` block
always pops it. (c) An identity not currently in the set is admitted again
whenever the payload pre-checks pass. -/
theorem C5_concurrency_guard (st : List Nat) (msg : Msg) (ov : Bool)
    (je : JobEnd) :
    (msg.uid ∈ st →
      handle_video st msg ov je = (st, ⟨false, false, false, true⟩)) ∧
    ((handle_video st msg ov je).2.admitted = true →
      msg.uid ∉ (handle_video st msg ov je).1) ∧
    (msg.uid ∉ st → ov = true → (resolveFilename msg.kind).isSome = true →
      msg.fileSize ≤ MAX_SIZE →
      (handle_video st msg ov je).2.admitted = true) := by
  refine ⟨fun h1 => ?_, ?_, fun h1 h2 h3 h4 => ?_⟩
  · simp [handle_video, h1]
  · by_cases h1 : msg.uid ∈ st
    · simp [handle_video, h1]
    · cases ov
      · simp [handle_video, h1]
      · cases hres : resolveFilename msg.kind with
        | none => simp [handle_video, h1, hres]
        | some fn =>
          by_cases hsz : msg.fileSize > MAX_SIZE
          · simp [handle_video, h1, hres, hsz]
          · intro _
            simp [handle_video, h1, hres, hsz, List.mem_filter]
  · subst h2
    obtain ⟨fn, hfn⟩ := Option.isSome_iff_exists.mp h3
    simp [handle_video, h1, hfn, Nat.not_lt.mpr h4]

/-- C5 witness: user 5 is rejected while in flight; an admitted job that
raises after processing still leaves user 5 absent; and a fresh request
from an absent user 5 is admitted. -/
theorem C5_concurrency_guard_witness :
    handle_video [5] ⟨5, .video, 100⟩ true .success =
        ([5], ⟨false, false, false, true⟩) ∧
      5 ∉ (handle_video [] ⟨5, .video, 100⟩ true .postProcessRaised).1 ∧
      (handle_video [] ⟨5, .video, 100⟩ true .success).2.admitted = true :=
  ⟨(C5_concurrency_guard [5] ⟨5, .video, 100⟩ true .success).1 (by decide),
   (C5_concurrency_guard [] ⟨5, .video, 100⟩ true .postProcessRaised).2.1
     (by decide),
   (C5_concurrency_guard [] ⟨5, .video, 100⟩ true .success).2.2 (by decide)
     rfl (by decide) (by decide)⟩

/-- C8 counterexample: there is no distinct timeout-stage error.  A compose
pass that times out and a compose pass that exits 1 produce identical
`process_video` results (`None`), and even `run_ffmpeg` cannot tell a
timeout from a failed run whose stderr happens to be the string
`"Timeout"` — the code has no `CompositingError` type at all. -/
theorem C8_counterexample :
    run_ffmpeg .timeout = run_ffmpeg (.ran 1 "" "Timeout") ∧
      process_video ⟨[⟨"inbox", "in.mp4"⟩], ⟨"inbox", "in.mp4"⟩, "o.mp4", true,
          .ran 0 true (some (1280, 720)), .ran 0 true (some 3),
          .timeout, true, 20000, .ran 0 "" ""⟩ =
        process_video ⟨[⟨"inbox", "in.mp4"⟩], ⟨"inbox", "in.mp4"⟩, "o.mp4", true,
          .ran 0 true (some (1280, 720)), .ran 0 true (some 3),
          .ran 1 "" "boom", true, 20000, .ran 0 "" ""⟩ ∧
      (process_video ⟨[⟨"inbox", "in.mp4"⟩], ⟨"inbox", "in.mp4"⟩, "o.mp4", true,
          .ran 0 true (some (1280, 720)), .ran 0 true (some 3),
          .timeout, true, 20000, .ran 0 "" ""⟩).output = none := by
  refine ⟨rfl, ?_, ?_⟩ <;> rfl

/-- C8 (amended): every external invocation carries a hard wall-clock
timeout — 300 s for the compose pass, 30 s for the probes and for
verification; an invocation that exceeds its budget makes `run_ffmpeg`
return `(False, "Timeout")` and makes the job fail (`process_video`
returns `None`) with no retry; but that job-level failure is the plain
`None` shared by all compose failures — no distinct
`CompositingError{stage: "timeout"}` exists in the code. -/
theorem C8_timeout_behavior (env : PVEnv) (h : env.composeOutcome = .timeout) :
    run_ffmpeg .timeout = (false, "Timeout") ∧
      (process_video env).output = none ∧
      runFfmpegTimeoutSeconds = 300 ∧ probeTimeoutSeconds = 30 ∧
      verifyTimeoutSeconds = 30 := by
  refine ⟨rfl, ?_, rfl, rfl, rfl⟩
  by_contra hne
  have hchar := (process_video_some_iff env).mp hne
  rw [h] at hchar
  exact Bool.noConfusion hchar.2.2.1

/-- C8 witness: the amended behavior at a job whose compose pass times out
with every other gate passing. -/
theorem C8_timeout_behavior_witness :
    run_ffmpeg .timeout = (false, "Timeout") ∧
      (process_video ⟨[⟨"inbox", "in.mp4"⟩], ⟨"inbox", "in.mp4"⟩, "o.mp4", true,
          .ran 0 true (some (1280, 720)), .ran 0 true (some 3),
          .timeout, true, 20000, .ran 0 "" ""⟩).output = none ∧
      runFfmpegTimeoutSeconds = 300 ∧ probeTimeoutSeconds = 30 ∧
      verifyTimeoutSeconds = 30 :=
  C8_timeout_behavior _ rfl

/-- The candidate loop returns `none` exactly when every candidate's version
probe fails. -/
lemma findLoop_eq_none_iff (probe : String → VersionProbe) (l : List String) :
    findLoop probe l = none ↔ ∀ p ∈ l, probeSucceeded (probe p) = false := by
  induction l with
  | nil => simp [findLoop]
  | cons a as ih =>
    simp only [findLoop]
    cases ha : probe a with
    | exc => simp [ih, probeSucceeded, ha]
    | ran rc =>
      by_cases hrc : rc = 0
      · subst hrc
        simp [probeSucceeded, ha]
      · simp [hrc, ih, probeSucceeded, ha]

/-- When the candidate loop returns a path, that path splits the list into
earlier candidates that all failed their probe and the returned candidate,
whose probe succeeded. -/
lemma findLoop_eq_some_split (probe : String → VersionProbe)
    (l : List String) (p : String) (h : findLoop probe l = some p) :
    ∃ l1 l2, l = l1 ++ p :: l2 ∧
      (∀ q ∈ l1, probeSucceeded (probe q) = false) ∧
      probeSucceeded (probe p) = true := by
  induction l with
  | nil => simp [findLoop] at h
  | cons a as ih =>
    simp only [findLoop] at h
    cases ha : probe a with
    | exc =>
      rw [ha] at h
      obtain ⟨l1, l2, rfl, hl1, hp⟩ := ih h
      refine ⟨a :: l1, l2, rfl, ?_, hp⟩
      intro q hq
      rcases List.mem_cons.mp hq with rfl | hq'
      · simp [probeSucceeded, ha]
      · exact hl1 q hq'
    | ran rc =>
      simp only [ha] at h
      by_cases hrc : rc = 0
      · subst hrc
        rw [if_pos rfl] at h
        obtain rfl : a = p := Option.some.inj h
        exact ⟨[], as, rfl, by simp, by simp [probeSucceeded, ha]⟩
      · rw [if_neg hrc] at h
        obtain ⟨l1, l2, rfl, hl1, hp⟩ := ih h
        refine ⟨a :: l1, l2, rfl, ?_, hp⟩
        intro q hq
        rcases List.mem_cons.mp hq with rfl | hq'
        · simp [probeSucceeded, ha, hrc]
        · exact hl1 q hq'

/-- C10 counterexample: the claimed fallback is wrong.  When all four
candidate probes exit 1 but `which ffmpeg` exits 0 printing
`/opt/bin/ffmpeg`, `_find_ffmpeg` returns that stripped path, not the
claimed generic name `"ffmpeg"` — the claim omits the `which` step
(lines 56-67). -/
theorem C10_counterexample :
    find_ffmpeg ⟨fun _ => .ran 1, .ran 0 "/opt/bin/ffmpeg\n"⟩ =
        "/opt/bin/ffmpeg" ∧
      findFfmpegClaimed ⟨fun _ => .ran 1, .ran 0 "/opt/bin/ffmpeg\n"⟩ =
        "ffmpeg" ∧
      ("/opt/bin/ffmpeg" : String) ≠ "ffmpeg" := by
  refine ⟨?_, rfl, by decide⟩
  decide

/-- C10 (amended): `_find_ffmpeg` probes, in order,
`/app/vendor/ffmpeg/ffmpeg`, `/usr/local/bin/ffmpeg`, `/usr/bin/ffmpeg`
and the PATH-relative `ffmpeg`, each with a version invocation under a 5 s
timeout, and returns the first candidate that exits successfully; if none
succeed it runs `which ffmpeg` and returns that command's stripped stdout
when it exits 0, and only otherwise falls back to the literal `"ffmpeg"`;
the result is computed once at construction (stored in `ffmpeg_path`) and
reused for the process's lifetime. -/
theorem C10_tool_resolution (env : FindEnv) :
    (initVideoProcessor env).ffmpeg_path = find_ffmpeg env ∧
      versionProbeTimeoutSeconds ≤ 5 ∧
      (∀ p, findLoop env.probe ffmpegCandidatePaths = some p →
        find_ffmpeg env = p ∧
          ∃ l1 l2, ffmpegCandidatePaths = l1 ++ p :: l2 ∧
            (∀ q ∈ l1, probeSucceeded (env.probe q) = false) ∧
            probeSucceeded (env.probe p) = true) ∧
      (findLoop env.probe ffmpegCandidatePaths = none →
        (∀ p ∈ ffmpegCandidatePaths, probeSucceeded (env.probe p) = false) ∧
          ((∃ out, env.whichO = .ran 0 out ∧ find_ffmpeg env = pyStrip out) ∨
            ((∀ out, env.whichO ≠ WhichOutcome.ran 0 out) ∧
              find_ffmpeg env = "ffmpeg"))) := by
  refine ⟨rfl, by decide, fun p hp => ?_, fun hn => ?_⟩
  · refine ⟨?_, findLoop_eq_some_split env.probe _ p hp⟩
    simp [find_ffmpeg, hp]
  · refine ⟨(findLoop_eq_none_iff env.probe _).mp hn, ?_⟩
    cases hw : env.whichO with
    | exc =>
      refine Or.inr ⟨fun out hcontra => ?_, ?_⟩
      · cases hcontra
      · simp [find_ffmpeg, hn, hw]
    | ran rc out =>
      by_cases hrc : rc = 0
      · subst hrc
        exact Or.inl ⟨out, rfl, by simp [find_ffmpeg, hn, hw]⟩
      · refine Or.inr ⟨fun o hcontra => ?_, by simp [find_ffmpeg, hn, hw, hrc]⟩
        exact hrc (WhichOutcome.ran.inj hcontra).1

/-- C10 witness: the amended resolution at two concrete environments — one
where the third candidate is the first to succeed, and one where every
candidate fails and `which` locates the tool. -/
theorem C10_tool_resolution_witness :
    find_ffmpeg ⟨fun p => if p = "/usr/bin/ffmpeg" then .ran 0 else .ran 1,
        .ran 0 ""⟩ = "/usr/bin/ffmpeg" ∧
      find_ffmpeg ⟨fun _ => .exc, .ran 0 " /opt/bin/ffmpeg\n"⟩ =
        "/opt/bin/ffmpeg" :=
  ⟨((C10_tool_resolution
      ⟨fun p => if p = "/usr/bin/ffmpeg" then .ran 0 else .ran 1,
        .ran 0 ""⟩).2.2.1 "/usr/bin/ffmpeg" (by decide)).1,
   by
    rcases (C10_tool_resolution
        ⟨fun _ => .exc, .ran 0 " /opt/bin/ffmpeg\n"⟩).2.2.2 (by decide) with
      ⟨-, hcase⟩
    rcases hcase with ⟨out, hout, heq⟩ | ⟨hno, -⟩
    · obtain rfl : out = " /opt/bin/ffmpeg\n" := ((WhichOutcome.ran.inj hout).2).symm
      rw [heq]
      decide
    · exact absurd rfl (hno " /opt/bin/ffmpeg\n")⟩

end Overle
